import Mathlib

/-!
Verification of the greenhouse growth simulator (`app.js`).

The numeric core of the program is embedded shallowly over `ℝ`:

* `tomatoScaleFromMass` maps a final mass to a visual fruit scale;
* `computeWeeklyGrowthFor` is the weekly growth model
  (seasonal × temperature × light × CO2 × soil factors);
* `integrateRange` is the accumulation loop over a range of week indices;
* `ghTick` is one timer tick of `runSimulation` for one greenhouse
  (incremental integration plus forward projection);
* `finalizeMass` is the end-of-run mass computation with its clamp to
  `[120, 2200]`;
* `runSimulation` models the start command's guard and state initialization.

JavaScript numbers are modelled as real numbers, integer-valued quantities
(unit counts, week indices, rounded masses) as `ℤ`/`ℕ`, and the possibly
absent `cloudyReductions` array as a `List ℝ` read through `List.getD`
(missing entries read as `0`, matching `cloudyReductions?.[weekIndex] || 0`).
-/

open Real

/-- `MONTHS` in `app.js`. -/
def MONTHS : ℕ := 6

/-- `WEEKS_PER_MONTH` in `app.js`. -/
def WEEKS_PER_MONTH : ℕ := 4

/-- `TOTAL_WEEKS = MONTHS * WEEKS_PER_MONTH` in `app.js`. -/
def TOTAL_WEEKS : ℕ := MONTHS * WEEKS_PER_MONTH

/-- `tomatoScaleFromMass` from `app.js`: with `minM = 120`, `maxM = 2200`,
`minS = 0.8`, `maxS = 1.5`, it computes
`n = max(0, min(1, (mass - minM) / (maxM - minM)))` and returns
`minS + (maxS - minS) * n`. -/
noncomputable def tomatoScaleFromMass (mass : ℝ) : ℝ :=
  0.8 + (1.5 - 0.8) * max 0 (min 1 ((mass - 120) / (2200 - 120)))

/-- The un-clamped temperature response of `computeWeeklyGrowthFor`:
`0.05` outside `(10, 35)`, a linear ramp up on `(10, 24]` and a linear
ramp down on `(24, 35)`. -/
noncomputable def tempFactorRaw (t : ℝ) : ℝ :=
  if t ≤ 10 ∨ 35 ≤ t then 0.05
  else if t ≤ 24 then 0.05 + (t - 10) / (24 - 10)
  else 1 - (t - 24) / (35 - 24)

/-- The temperature factor of `computeWeeklyGrowthFor`, after the final
`Math.max(0.05, Math.min(1, tempFactor))` clamp. -/
noncomputable def tempFactor (t : ℝ) : ℝ :=
  max 0.05 (min 1 (tempFactorRaw t))

/-- JavaScript `| 0` applied to an integer: wrap into signed 32-bit range. -/
def toInt32 (n : ℤ) : ℤ := (n + 2 ^ 31) % 2 ^ 32 - 2 ^ 31

/-- `Math.max(0, Math.min(3, n | 0))`: the index clamp applied to the light
and CO2 unit counts before the table lookup. -/
def clampCount (n : ℤ) : ℤ := max 0 (min 3 (toInt32 n))

/-- `lightMultipliers = [1.0, 1.3, 1.6, 1.6]` from `app.js`. -/
noncomputable def lightMultipliers : List ℝ := [1.0, 1.3, 1.6, 1.6]

/-- `co2Multipliers = [1.0, 1.15, 1.25, 1.25]` from `app.js`. -/
noncomputable def co2Multipliers : List ℝ := [1.0, 1.15, 1.25, 1.25]

/-- The (pre-cloud) light factor: `lightMultipliers[clamped count]`. -/
noncomputable def lightFactorOf (lightsCount : ℤ) : ℝ :=
  lightMultipliers.getD (clampCount lightsCount).toNat 0

/-- The CO2 factor: `co2Multipliers[clamped count]`. -/
noncomputable def co2FactorOf (co2Fans : ℤ) : ℝ :=
  co2Multipliers.getD (clampCount co2Fans).toNat 0

/-- The seasonal multiplier of `computeWeeklyGrowthFor`:
`0.95 + 0.05 * Math.sin((monthIdx / 6) * Math.PI * 2)` with
`monthIdx = Math.floor(weekIndex / WEEKS_PER_MONTH)`. -/
noncomputable def seasonal (weekIndex : ℕ) : ℝ :=
  0.95 + 0.05 * Real.sin (((weekIndex / WEEKS_PER_MONTH : ℕ) : ℝ) / 6 * Real.pi * 2)

/-- The light factor after the cloudy-week adjustment: the table value is
multiplied by `(1 - reduction)` exactly when the week's reduction is
strictly positive. -/
noncomputable def effectiveLightFactor (lightsCount : ℤ) (weekIndex : ℕ)
    (cloudyReductions : List ℝ) : ℝ :=
  if 0 < cloudyReductions.getD weekIndex 0 then
    lightFactorOf lightsCount * (1 - cloudyReductions.getD weekIndex 0)
  else lightFactorOf lightsCount

/-- `computeWeeklyGrowthFor` from `app.js`:
`seasonal * tempFactor * lightFactor * co2Factor * soil`. -/
noncomputable def computeWeeklyGrowthFor (temperatureC : ℝ) (lightsCount co2Fans : ℤ)
    (soil : ℝ) (weekIndex : ℕ) (cloudyReductions : List ℝ) : ℝ :=
  seasonal weekIndex * tempFactor temperatureC *
    effectiveLightFactor lightsCount weekIndex cloudyReductions *
    co2FactorOf co2Fans * soil

/-- The accumulation loop `for (w = lo; w < hi; w++) acc += weeklyGrowth(w)`
(used with `lo = lastWeekComputed + 1` in the tick and with the full range
in `computeMassWeekly`). -/
noncomputable def integrateRange (temperatureC : ℝ) (lightsCount co2Fans : ℤ)
    (soil : ℝ) (cloudyReductions : List ℝ) (lo hi : ℕ) : ℝ :=
  ∑ w ∈ Finset.Ico lo hi,
    computeWeeklyGrowthFor temperatureC lightsCount co2Fans soil w cloudyReductions

/-- Per-greenhouse run state mutated by the tick: `accGrowth`,
`lastWeekComputed` (initially `-1`) and `tomatoScaleTarget`. -/
structure GhRunState where
  accGrowth : ℝ
  lastWeekComputed : ℤ
  tomatoScaleTarget : ℝ

/-- Finalization of the mass at the end of a run (lines 283-287 of
`app.js`): `Math.max(120, Math.min(2200, Math.round(120 + 30 * acc^1.05 * noise)))`. -/
noncomputable def finalizeMass (accGrowth noise : ℝ) : ℤ :=
  max 120 (min 2200 (round (120 + 30 * accGrowth ^ (1.05 : ℝ) * noise)))

/-- One timer tick of `runSimulation` for one greenhouse: integrate the
newly reached weeks `lastWeekComputed+1 .. currentWeek` into `accGrowth`,
advance `lastWeekComputed`, and recompute `tomatoScaleTarget` from the
accumulated growth plus a forward projection of the remaining weeks. -/
noncomputable def ghTick (s : GhRunState) (temperatureC : ℝ) (lightsCount co2Fans : ℤ)
    (soil : ℝ) (cloudyReductions : List ℝ) (currentWeek : ℕ) : GhRunState :=
  let acc := s.accGrowth + integrateRange temperatureC lightsCount co2Fans soil
      cloudyReductions (s.lastWeekComputed + 1).toNat (currentWeek + 1)
  let projected := integrateRange temperatureC lightsCount co2Fans soil
      cloudyReductions (currentWeek + 1) TOTAL_WEEKS
  { accGrowth := acc
    lastWeekComputed := max s.lastWeekComputed (currentWeek : ℤ)
    tomatoScaleTarget :=
      tomatoScaleFromMass
        ((max 120 (min 2200 (round (120 + 30 * (acc + projected) ^ (1.05 : ℝ)))) : ℤ) : ℝ) }

/-- Per-greenhouse instance state relevant to the start command. -/
structure GhState where
  soil : ℝ
  cloudyWeeks : List ℕ
  cloudyReductions : List ℝ
  run : GhRunState

/-- Module-level simulation state: the `running` flag, the start timestamp,
whether the interval timer is scheduled, and the per-greenhouse states. -/
structure SimState where
  running : Bool
  startTs : ℝ
  timerActive : Bool
  greenhouses : List GhState

/-- Start-of-run initialization of one greenhouse: install the freshly drawn
cloud schedule and reset the accumulators (`accGrowth = 0`,
`lastWeekComputed = -1`). -/
def startGreenhouse (g : GhState) (fresh : List ℕ × List ℝ) : GhState :=
  { g with cloudyWeeks := fresh.1, cloudyReductions := fresh.2,
           run := { accGrowth := 0, lastWeekComputed := -1,
                    tomatoScaleTarget := g.run.tomatoScaleTarget } }

/-- The start command (`runSimulation` in `app.js`): if already running it
returns immediately, otherwise it sets `running`, captures the start
timestamp, schedules the timer, and initializes every greenhouse with a
fresh cloud schedule and reset accumulators. -/
def runSimulation (st : SimState) (now : ℝ)
    (freshSchedules : List (List ℕ × List ℝ)) : SimState :=
  if st.running then st
  else
    { running := true
      startTs := now
      timerActive := true
      greenhouses := (st.greenhouses.zip freshSchedules).map
        fun p => startGreenhouse p.1 p.2 }

/-- C10: `tomatoScaleFromMass` is total on `ℝ`, always lands in
`[0.8, 1.5]`, is exactly `0.8` for masses `≤ 120`, exactly `1.5` for
masses `≥ 2200`, interpolates linearly in between, and is monotonically
non-decreasing. -/
theorem tomatoScale_bounded_and_monotone :
    ∀ mass : ℝ,
      0.8 ≤ tomatoScaleFromMass mass ∧ tomatoScaleFromMass mass ≤ 1.5 ∧
      (mass ≤ 120 → tomatoScaleFromMass mass = 0.8) ∧
      (2200 ≤ mass → tomatoScaleFromMass mass = 1.5) ∧
      (120 ≤ mass → mass ≤ 2200 →
        tomatoScaleFromMass mass = 0.8 + (1.5 - 0.8) * ((mass - 120) / (2200 - 120))) ∧
      ∀ m1 m2 : ℝ, m1 ≤ m2 → tomatoScaleFromMass m1 ≤ tomatoScaleFromMass m2 := by
  have key : ∀ m1 m2 : ℝ, m1 ≤ m2 →
      tomatoScaleFromMass m1 ≤ tomatoScaleFromMass m2 := by
    intro m1 m2 h
    unfold tomatoScaleFromMass
    have hd : (m1 - 120) / (2200 - 120) ≤ (m2 - 120) / (2200 - 120) := by
      rw [div_le_div_right (by norm_num)]
      linarith
    have hmm : max 0 (min 1 ((m1 - 120) / (2200 - 120)))
        ≤ max 0 (min 1 ((m2 - 120) / (2200 - 120))) :=
      max_le_max le_rfl (min_le_min le_rfl hd)
    nlinarith [hmm]
  intro mass
  refine ⟨?_, ?_, ?_, ?_, ?_, key⟩
  · unfold tomatoScaleFromMass
    have h0 : (0:ℝ) ≤ max 0 (min 1 ((mass - 120) / (2200 - 120))) := le_max_left _ _
    nlinarith
  · unfold tomatoScaleFromMass
    have h1 : max 0 (min 1 ((mass - 120) / (2200 - 120))) ≤ 1 :=
      max_le (by norm_num) (min_le_left _ _)
    nlinarith
  · intro h
    unfold tomatoScaleFromMass
    have hu : (mass - 120) / (2200 - 120) ≤ 0 := by
      apply div_nonpos_of_nonpos_of_nonneg <;> linarith
    rw [max_eq_left (le_trans (min_le_right _ _) hu)]
    ring
  · intro h
    unfold tomatoScaleFromMass
    have hu : (1:ℝ) ≤ (mass - 120) / (2200 - 120) := by
      rw [le_div_iff (by norm_num)]
      linarith
    rw [min_eq_left hu, max_eq_right (by norm_num : (0:ℝ) ≤ 1)]
    norm_num
  · intro h1 h2
    unfold tomatoScaleFromMass
    have hl : (0:ℝ) ≤ (mass - 120) / (2200 - 120) :=
      div_nonneg (by linarith) (by norm_num)
    have hu : (mass - 120) / (2200 - 120) ≤ 1 := by
      rw [div_le_one (by norm_num)]
      linarith
    rw [min_eq_right hu, max_eq_right hl]

/-- Value of `tempFactorRaw` on the left floor region. -/
lemma tempFactorRaw_of_le_10 {t : ℝ} (h : t ≤ 10) : tempFactorRaw t = 0.05 := by
  unfold tempFactorRaw
  rw [if_pos (Or.inl h)]

/-- Value of `tempFactorRaw` on the right floor region. -/
lemma tempFactorRaw_of_ge_35 {t : ℝ} (h : 35 ≤ t) : tempFactorRaw t = 0.05 := by
  unfold tempFactorRaw
  rw [if_pos (Or.inr h)]

/-- Value of `tempFactorRaw` on the rising ramp. -/
lemma tempFactorRaw_of_ramp_up {t : ℝ} (h1 : 10 < t) (h2 : t ≤ 24) :
    tempFactorRaw t = 0.05 + (t - 10) / (24 - 10) := by
  unfold tempFactorRaw
  rw [if_neg (by push_neg; constructor <;> linarith), if_pos h2]

/-- Value of `tempFactorRaw` on the falling ramp. -/
lemma tempFactorRaw_of_ramp_down {t : ℝ} (h1 : 24 < t) (h2 : t < 35) :
    tempFactorRaw t = 1 - (t - 24) / (35 - 24) := by
  unfold tempFactorRaw
  rw [if_neg (by push_neg; constructor <;> linarith), if_neg (by linarith)]

/-- The clamp of `tempFactor` is the identity on `[0.05, 1]`. -/
lemma tempFactor_clamp_id {x : ℝ} (h1 : 0.05 ≤ x) (h2 : x ≤ 1) :
    max 0.05 (min 1 x) = x := by
  rw [min_eq_right h2, max_eq_right h1]

/-- The temperature factor is at least its floor `0.05`. -/
lemma tempFactor_lb (t : ℝ) : 0.05 ≤ tempFactor t := le_max_left _ _

/-- The temperature factor never exceeds `1`. -/
lemma tempFactor_ub (t : ℝ) : tempFactor t ≤ 1 :=
  max_le (by norm_num) (min_le_left _ _)

/-- The temperature factor is exactly `1` at 24 °C. -/
lemma tempFactor_at_24 : tempFactor (24:ℝ) = 1 := by
  unfold tempFactor
  rw [tempFactorRaw_of_ramp_up (by norm_num) le_rfl]
  rw [min_eq_left (by norm_num), max_eq_right (by norm_num)]

/-- The temperature factor equals the floor on and outside the 10/35 bounds. -/
lemma tempFactor_floor {t : ℝ} (h : t ≤ 10 ∨ 35 ≤ t) : tempFactor t = 0.05 := by
  unfold tempFactor
  rw [show tempFactorRaw t = 0.05 from by
        rcases h with h | h
        · exact tempFactorRaw_of_le_10 h
        · exact tempFactorRaw_of_ge_35 h]
  rw [min_eq_right (by norm_num), max_eq_left le_rfl]

/-- Monotonicity of the clamp `max 0.05 (min 1 ·)`. -/
lemma clamp_mono {a b : ℝ} (h : a ≤ b) :
    max 0.05 (min 1 a) ≤ max 0.05 (min 1 b) :=
  max_le_max le_rfl (min_le_min le_rfl h)

/-- The temperature factor is non-decreasing on `[10, 24]`. -/
lemma tempFactor_mono_up {t1 t2 : ℝ} (h1 : 10 ≤ t1) (h12 : t1 ≤ t2) (h2 : t2 ≤ 24) :
    tempFactor t1 ≤ tempFactor t2 := by
  rcases le_or_lt t1 10 with a | a
  · rw [show t1 = 10 from le_antisymm a h1, tempFactor_floor (Or.inl le_rfl)]
    exact tempFactor_lb t2
  · unfold tempFactor
    rw [tempFactorRaw_of_ramp_up a (le_trans h12 h2),
        tempFactorRaw_of_ramp_up (lt_of_lt_of_le a h12) h2]
    exact clamp_mono (by linarith)

/-- The temperature factor is non-increasing on `[24, 35]`. -/
lemma tempFactor_mono_down {t1 t2 : ℝ} (h1 : 24 ≤ t1) (h12 : t1 ≤ t2) (h2 : t2 ≤ 35) :
    tempFactor t2 ≤ tempFactor t1 := by
  rcases le_or_lt 35 t2 with a | a
  · rw [tempFactor_floor (Or.inr a)]
    exact tempFactor_lb t1
  · rcases le_or_lt t1 24 with b | b
    · rw [show t1 = 24 from le_antisymm b h1, tempFactor_at_24]
      exact tempFactor_ub t2
    · unfold tempFactor
      rw [tempFactorRaw_of_ramp_down b (lt_of_le_of_lt h12 a),
          tempFactorRaw_of_ramp_down (lt_of_lt_of_le b h12) a]
      exact clamp_mono (by linarith)

/-- On integer temperatures, the factor is strictly increasing on `[10, 24]`. -/
lemma tempFactor_strict_up {t1 t2 : ℤ} (h1 : 10 ≤ t1) (h12 : t1 < t2) (h2 : t2 ≤ 24) :
    tempFactor (t1 : ℝ) < tempFactor (t2 : ℝ) := by
  have c1 : (10:ℝ) ≤ (t1:ℝ) := by exact_mod_cast h1
  have c12 : (t1:ℝ) < (t2:ℝ) := by exact_mod_cast h12
  have c2 : (t2:ℝ) ≤ 24 := by exact_mod_cast h2
  rcases le_or_lt t2 23 with a | a
  · have ca : (t2:ℝ) ≤ 23 := by exact_mod_cast a
    have hraw2 : tempFactor (t2:ℝ) = tempFactorRaw (t2:ℝ) := by
      unfold tempFactor
      rw [tempFactorRaw_of_ramp_up (by linarith) c2]
      exact tempFactor_clamp_id (by linarith) (by linarith)
    rcases le_or_lt (t1:ℝ) 10 with b | b
    · rw [show (t1:ℝ) = 10 from le_antisymm b c1, tempFactor_floor (Or.inl le_rfl),
          hraw2, tempFactorRaw_of_ramp_up (by linarith) c2]
      have c11 : (11:ℝ) ≤ (t2:ℝ) := by
        have h11 : (11:ℤ) ≤ t2 := by omega
        exact_mod_cast h11
      linarith
    · have hraw1 : tempFactor (t1:ℝ) = tempFactorRaw (t1:ℝ) := by
        unfold tempFactor
        rw [tempFactorRaw_of_ramp_up b (by linarith)]
        exact tempFactor_clamp_id (by linarith) (by linarith)
      rw [hraw1, hraw2, tempFactorRaw_of_ramp_up b (by linarith),
          tempFactorRaw_of_ramp_up (by linarith) c2]
      linarith
  · have ht2 : t2 = 24 := le_antisymm h2 a
    have ct1 : (t1:ℝ) ≤ 23 := by
      have h23 : t1 ≤ 23 := by omega
      exact_mod_cast h23
    rw [ht2]
    push_cast
    rw [tempFactor_at_24]
    have hlt : tempFactorRaw (t1:ℝ) < 1 := by
      rcases le_or_lt (t1:ℝ) 10 with b | b
      · rw [tempFactorRaw_of_le_10 b]; norm_num
      · rw [tempFactorRaw_of_ramp_up b (by linarith)]; linarith
    exact max_lt (by norm_num) (lt_of_le_of_lt (min_le_right _ _) hlt)

/-- On integer temperatures, the factor is strictly decreasing on `[24, 35]`. -/
lemma tempFactor_strict_down {t1 t2 : ℤ} (h1 : 24 ≤ t1) (h12 : t1 < t2) (h2 : t2 ≤ 35) :
    tempFactor (t2 : ℝ) < tempFactor (t1 : ℝ) := by
  have c1 : (24:ℝ) ≤ (t1:ℝ) := by exact_mod_cast h1
  have c12 : (t1:ℝ) < (t2:ℝ) := by exact_mod_cast h12
  have c2 : (t2:ℝ) ≤ 35 := by exact_mod_cast h2
  rcases le_or_lt t1 24 with b | b
  · have ht1 : t1 = 24 := le_antisymm b h1
    rw [ht1]
    push_cast
    rw [tempFactor_at_24]
    have hlt : tempFactorRaw (t2:ℝ) < 1 := by
      rcases le_or_lt 35 (t2:ℝ) with d | d
      · rw [tempFactorRaw_of_ge_35 d]; norm_num
      · have c25 : (25:ℝ) ≤ (t2:ℝ) := by
          exact_mod_cast Int.lt_iff_add_one_le.mp (ht1 ▸ h12)
        rw [tempFactorRaw_of_ramp_down (by linarith) d]
        have : (0:ℝ) < ((t2:ℝ) - 24) / (35 - 24) := by
          apply div_pos <;> linarith
        linarith
    exact max_lt (by norm_num) (lt_of_le_of_lt (min_le_right _ _) hlt)
  · have cb : (24:ℝ) < (t1:ℝ) := by exact_mod_cast b
    have ct1 : (t1:ℝ) ≤ 34 := by
      have h34 : t1 ≤ 34 := by omega
      exact_mod_cast h34
    have hraw1 : tempFactor (t1:ℝ) = tempFactorRaw (t1:ℝ) := by
      unfold tempFactor
      rw [tempFactorRaw_of_ramp_down cb (by linarith)]
      refine tempFactor_clamp_id ?_ ?_
      · have : ((t1:ℝ) - 24) / (35 - 24) ≤ 10 / 11 := by
          rw [div_le_div_iff (by norm_num) (by norm_num)]
          linarith
        linarith
      · have : (0:ℝ) ≤ ((t1:ℝ) - 24) / (35 - 24) := div_nonneg (by linarith) (by norm_num)
        linarith
    rcases le_or_lt 35 (t2:ℝ) with d | d
    · rw [tempFactor_floor (Or.inr d), hraw1,
          tempFactorRaw_of_ramp_down cb (by linarith)]
      have : ((t1:ℝ) - 24) / (35 - 24) ≤ 10 / 11 := by
        rw [div_le_div_iff (by norm_num) (by norm_num)]
        linarith
      linarith
    · have hraw2 : tempFactor (t2:ℝ) = tempFactorRaw (t2:ℝ) := by
        unfold tempFactor
        rw [tempFactorRaw_of_ramp_down (by linarith) d]
        refine tempFactor_clamp_id ?_ ?_
        · have : ((t2:ℝ) - 24) / (35 - 24) ≤ 10 / 11 := by
            rw [div_le_div_iff (by norm_num) (by norm_num)]
            have : (t2:ℝ) ≤ 34 := by
              have hi : t2 < 35 := by exact_mod_cast d
              have c34 : t2 ≤ 34 := by omega
              exact_mod_cast c34
            linarith
          linarith
        · have : (0:ℝ) ≤ ((t2:ℝ) - 24) / (35 - 24) := div_nonneg (by linarith) (by norm_num)
          linarith
      rw [hraw1, hraw2, tempFactorRaw_of_ramp_down cb (by linarith),
          tempFactorRaw_of_ramp_down (by linarith) d]
      have : ((t1:ℝ) - 24) / (35 - 24) < ((t2:ℝ) - 24) / (35 - 24) := by
        rw [div_lt_div_iff (by norm_num) (by norm_num)]
        linarith
      linarith

/-- Clamping the temperature to `[10, 35]` does not change the factor. -/
lemma tempFactor_clamp_temp (t : ℝ) : tempFactor (min 35 (max 10 t)) = tempFactor t := by
  rcases le_or_lt t 10 with a | a
  · rw [max_eq_left a, min_eq_right (by norm_num : (10:ℝ) ≤ 35),
        tempFactor_floor (Or.inl le_rfl), tempFactor_floor (Or.inl a)]
  · rcases le_or_lt 35 t with b | b
    · rw [max_eq_right (by linarith), min_eq_left b,
          tempFactor_floor (Or.inr le_rfl), tempFactor_floor (Or.inr b)]
    · rw [max_eq_right a.le, min_eq_right b.le]

/-- C2: the temperature factor equals `1` exactly at 24 °C, is monotone
toward 24 on either side (non-decreasing on `[10, 24]`, non-increasing on
`[24, 35]`, and strictly so on the integer temperatures the sliders
produce), equals the `0.05` floor for every temperature `≤ 10` or `≥ 35`,
and always lies within `[0.05, 1]`. -/
theorem tempFactor_triangular_response :
    tempFactor 24 = 1 ∧
    (∀ t1 t2 : ℝ, 10 ≤ t1 → t1 ≤ t2 → t2 ≤ 24 → tempFactor t1 ≤ tempFactor t2) ∧
    (∀ t1 t2 : ℝ, 24 ≤ t1 → t1 ≤ t2 → t2 ≤ 35 → tempFactor t2 ≤ tempFactor t1) ∧
    (∀ t1 t2 : ℤ, 10 ≤ t1 → t1 < t2 → t2 ≤ 24 → tempFactor (t1:ℝ) < tempFactor (t2:ℝ)) ∧
    (∀ t1 t2 : ℤ, 24 ≤ t1 → t1 < t2 → t2 ≤ 35 → tempFactor (t2:ℝ) < tempFactor (t1:ℝ)) ∧
    (∀ t : ℝ, t ≤ 10 ∨ 35 ≤ t → tempFactor t = 0.05) ∧
    (∀ t : ℝ, 0.05 ≤ tempFactor t ∧ tempFactor t ≤ 1) :=
  ⟨tempFactor_at_24,
   fun _ _ h1 h12 h2 => tempFactor_mono_up h1 h12 h2,
   fun _ _ h1 h12 h2 => tempFactor_mono_down h1 h12 h2,
   fun _ _ h1 h12 h2 => tempFactor_strict_up h1 h12 h2,
   fun _ _ h1 h12 h2 => tempFactor_strict_down h1 h12 h2,
   fun _ h => tempFactor_floor h,
   fun t => ⟨tempFactor_lb t, tempFactor_ub t⟩⟩

/-- C2 witness: the theorem applied at concrete temperatures. -/
theorem tempFactor_triangular_response_witness :
    tempFactor 18 ≤ tempFactor 20 ∧ tempFactor 30 ≤ tempFactor 26 ∧
    tempFactor ((23:ℤ):ℝ) < tempFactor ((24:ℤ):ℝ) ∧
    tempFactor ((35:ℤ):ℝ) < tempFactor ((34:ℤ):ℝ) ∧
    tempFactor 40 = 0.05 :=
  ⟨tempFactor_triangular_response.2.1 18 20 (by norm_num) (by norm_num) (by norm_num),
   tempFactor_triangular_response.2.2.1 26 30 (by norm_num) (by norm_num) (by norm_num),
   tempFactor_triangular_response.2.2.2.1 23 24 (by norm_num) (by norm_num) (by norm_num),
   tempFactor_triangular_response.2.2.2.2.1 34 35 (by norm_num) (by norm_num) (by norm_num),
   tempFactor_triangular_response.2.2.2.2.2.1 40 (Or.inr (by norm_num))⟩

/-- C8: the growth model treats any temperature exactly like its clamp to
`[10, 35]`: `computeWeeklyGrowthFor` returns the same value at `t` and at
`min 35 (max 10 t)`, all other inputs equal. -/
theorem computeWeeklyGrowthFor_temp_clamped :
    ∀ (temperatureC soil : ℝ) (lightsCount co2Fans : ℤ) (weekIndex : ℕ)
      (cloudyReductions : List ℝ),
      computeWeeklyGrowthFor temperatureC lightsCount co2Fans soil weekIndex cloudyReductions
        = computeWeeklyGrowthFor (min 35 (max 10 temperatureC)) lightsCount co2Fans soil
            weekIndex cloudyReductions := by
  intro t soil l c w reds
  unfold computeWeeklyGrowthFor
  rw [tempFactor_clamp_temp]

/-- The clamped count is never negative. -/
lemma clampCount_nonneg (n : ℤ) : 0 ≤ clampCount n := le_max_left _ _

/-- The clamped count never exceeds `3`. -/
lemma clampCount_le_three (n : ℤ) : clampCount n ≤ 3 :=
  max_le (by norm_num) (min_le_left _ _)

/-- The clamped count is one of the four table indices. -/
lemma clampCount_cases (n : ℤ) :
    clampCount n = 0 ∨ clampCount n = 1 ∨ clampCount n = 2 ∨ clampCount n = 3 := by
  have h0 := clampCount_nonneg n
  have h3 := clampCount_le_three n
  omega

/-- On in-range counts the clamp is the identity. -/
lemma clampCount_small {n : ℤ} (h0 : 0 ≤ n) (h3 : n ≤ 3) : clampCount n = n := by
  have he : toInt32 n = n := by
    unfold toInt32
    have h31 : (2:ℤ) ^ 31 = 2147483648 := by norm_num
    have h32 : (2:ℤ) ^ 32 = 4294967296 := by norm_num
    rw [h31, h32, Int.emod_eq_of_lt (by omega) (by omega)]
    ring
  unfold clampCount
  rw [he, min_eq_right h3, max_eq_right h0]

/-- Table values of the light factor on the four slider positions. -/
lemma lightFactorOf_vals :
    lightFactorOf 0 = 1.0 ∧ lightFactorOf 1 = 1.3 ∧
    lightFactorOf 2 = 1.6 ∧ lightFactorOf 3 = 1.6 :=
  ⟨rfl, rfl, rfl, rfl⟩

/-- Table values of the CO2 factor on the four slider positions. -/
lemma co2FactorOf_vals :
    co2FactorOf 0 = 1.0 ∧ co2FactorOf 1 = 1.15 ∧
    co2FactorOf 2 = 1.25 ∧ co2FactorOf 3 = 1.25 :=
  ⟨rfl, rfl, rfl, rfl⟩

/-- Every light factor is at least `1` (table minimum). -/
lemma one_le_lightFactorOf (n : ℤ) : 1 ≤ lightFactorOf n := by
  unfold lightFactorOf
  rcases clampCount_cases n with h | h | h | h <;> rw [h]
  · rw [show lightMultipliers.getD (Int.toNat 0) 0 = 1.0 from rfl]; norm_num
  · rw [show lightMultipliers.getD (Int.toNat 1) 0 = 1.3 from rfl]; norm_num
  · rw [show lightMultipliers.getD (Int.toNat 2) 0 = 1.6 from rfl]; norm_num
  · rw [show lightMultipliers.getD (Int.toNat 3) 0 = 1.6 from rfl]; norm_num

/-- Every CO2 factor is at least `1` (table minimum). -/
lemma one_le_co2FactorOf (n : ℤ) : 1 ≤ co2FactorOf n := by
  unfold co2FactorOf
  rcases clampCount_cases n with h | h | h | h <;> rw [h]
  · rw [show co2Multipliers.getD (Int.toNat 0) 0 = 1.0 from rfl]; norm_num
  · rw [show co2Multipliers.getD (Int.toNat 1) 0 = 1.15 from rfl]; norm_num
  · rw [show co2Multipliers.getD (Int.toNat 2) 0 = 1.25 from rfl]; norm_num
  · rw [show co2Multipliers.getD (Int.toNat 3) 0 = 1.25 from rfl]; norm_num

/-- C4: the light and CO2 factor tables are non-decreasing over the counts
`0..3`, saturate from count 2 on (the factors at 2 and 3 coincide), and
any count is clamped into `[0, 3]` before the table lookup. -/
theorem lightCo2_tables_saturating :
    (∀ m n : ℤ, 0 ≤ m → m ≤ n → n ≤ 3 →
      lightFactorOf m ≤ lightFactorOf n ∧ co2FactorOf m ≤ co2FactorOf n) ∧
    lightFactorOf 2 = lightFactorOf 3 ∧
    co2FactorOf 2 = co2FactorOf 3 ∧
    (∀ n : ℤ, 0 ≤ clampCount n ∧ clampCount n ≤ 3 ∧
      lightFactorOf n = lightMultipliers.getD (clampCount n).toNat 0 ∧
      co2FactorOf n = co2Multipliers.getD (clampCount n).toNat 0) := by
  obtain ⟨l0, l1, l2, l3⟩ := lightFactorOf_vals
  obtain ⟨d0, d1, d2, d3⟩ := co2FactorOf_vals
  refine ⟨?_, by rw [l2, l3], by rw [d2, d3],
    fun n => ⟨clampCount_nonneg n, clampCount_le_three n, rfl, rfl⟩⟩
  intro m n h0 hmn h3
  have hm3 : m ≤ 3 := le_trans hmn h3
  interval_cases m <;> interval_cases n <;>
    simp only [l0, l1, l2, l3, d0, d1, d2, d3] <;>
    exact ⟨by norm_num, by norm_num⟩

/-- C4 witness: the theorem applied at concrete counts. -/
theorem lightCo2_tables_saturating_witness :
    (lightFactorOf 1 ≤ lightFactorOf 2 ∧ co2FactorOf 1 ≤ co2FactorOf 2) ∧
    lightFactorOf 2 = lightFactorOf 3 :=
  ⟨lightCo2_tables_saturating.1 1 2 (by norm_num) (by norm_num) (by norm_num),
   lightCo2_tables_saturating.2.1⟩

/-- C5: a strictly positive cloud reduction strictly lowers the effective
light factor below the table value, and a zero (or absent) reduction
leaves the light factor exactly the table value. -/
theorem cloud_reduction_effect (lightsCount : ℤ) (weekIndex : ℕ)
    (cloudyReductions : List ℝ) :
    (0 < cloudyReductions.getD weekIndex 0 →
      effectiveLightFactor lightsCount weekIndex cloudyReductions
        < lightFactorOf lightsCount) ∧
    (cloudyReductions.getD weekIndex 0 = 0 →
      effectiveLightFactor lightsCount weekIndex cloudyReductions
        = lightFactorOf lightsCount) := by
  constructor
  · intro h
    unfold effectiveLightFactor
    rw [if_pos h]
    have h1 := one_le_lightFactorOf lightsCount
    nlinarith
  · intro h
    unfold effectiveLightFactor
    rw [h]
    simp

/-- C5 witness: a week with reduction `0.5` and a week outside the cloudy
schedule, on one light unit. -/
theorem cloud_reduction_effect_witness :
    effectiveLightFactor 1 0 [0.5] < lightFactorOf 1 ∧
    effectiveLightFactor 1 3 [0.5] = lightFactorOf 1 :=
  ⟨(cloud_reduction_effect 1 0 [0.5]).1 (by norm_num),
   (cloud_reduction_effect 1 3 [0.5]).2 (by norm_num)⟩

/-- The cloud schedule invariant: every entry is `0` (clear week) or a
reduction drawn from `[0.3, 0.6)` (`0.3 + Math.random() * 0.3`). -/
def ValidReductions (cloudyReductions : List ℝ) : Prop :=
  ∀ i : ℕ, cloudyReductions.getD i 0 = 0 ∨
    (0.3 ≤ cloudyReductions.getD i 0 ∧ cloudyReductions.getD i 0 < 0.6)

/-- The seasonal multiplier lies in `[0.9, 1]`. -/
lemma seasonal_bounds (weekIndex : ℕ) :
    0.9 ≤ seasonal weekIndex ∧ seasonal weekIndex ≤ 1 := by
  unfold seasonal
  have h1 := Real.neg_one_le_sin
    (((weekIndex / WEEKS_PER_MONTH : ℕ) : ℝ) / 6 * Real.pi * 2)
  have h2 := Real.sin_le_one
    (((weekIndex / WEEKS_PER_MONTH : ℕ) : ℝ) / 6 * Real.pi * 2)
  constructor <;> nlinarith

/-- Under the schedule invariant the effective light factor is positive. -/
lemma effectiveLightFactor_pos {lightsCount : ℤ} {weekIndex : ℕ}
    {cloudyReductions : List ℝ} (hr : ValidReductions cloudyReductions) :
    0 < effectiveLightFactor lightsCount weekIndex cloudyReductions := by
  have hl := one_le_lightFactorOf lightsCount
  unfold effectiveLightFactor
  split_ifs with h
  · rcases hr weekIndex with h0 | ⟨_, h6⟩
    · rw [h0] at h
      exact absurd h (lt_irrefl 0)
    · nlinarith
  · linarith

/-- Under the input invariants each weekly growth value is non-negative. -/
lemma computeWeeklyGrowthFor_nonneg {temperatureC soil : ℝ} {lightsCount co2Fans : ℤ}
    {weekIndex : ℕ} {cloudyReductions : List ℝ}
    (hsoil : 0 ≤ soil) (hr : ValidReductions cloudyReductions) :
    0 ≤ computeWeeklyGrowthFor temperatureC lightsCount co2Fans soil weekIndex
      cloudyReductions := by
  have hs := (seasonal_bounds weekIndex).1
  have ht := tempFactor_lb temperatureC
  have hl := @effectiveLightFactor_pos lightsCount weekIndex cloudyReductions hr
  have hc := one_le_co2FactorOf co2Fans
  unfold computeWeeklyGrowthFor
  apply mul_nonneg
  apply mul_nonneg
  apply mul_nonneg
  apply mul_nonneg
  · linarith
  · linarith
  · linarith
  · linarith
  · exact hsoil

/-- C1: for every valid input the weekly growth value is non-negative, and
the finalized mass lies in `[120, 2200]` for every accumulator value and
every noise draw. -/
theorem weeklyGrowth_nonneg_and_mass_clamped (temperatureC soil : ℝ)
    (lightsCount co2Fans : ℤ) (weekIndex : ℕ) (cloudyReductions : List ℝ)
    (accGrowth noise : ℝ)
    (hl1 : 0 ≤ lightsCount) (hl2 : lightsCount ≤ 3)
    (hc1 : 0 ≤ co2Fans) (hc2 : co2Fans ≤ 3)
    (hs1 : 0.85 ≤ soil) (hs2 : soil ≤ 1.15)
    (hw : weekIndex < TOTAL_WEEKS)
    (hr : ValidReductions cloudyReductions)
    (hn1 : 0.9 ≤ noise) (hn2 : noise < 1.1) :
    0 ≤ computeWeeklyGrowthFor temperatureC lightsCount co2Fans soil weekIndex
        cloudyReductions ∧
    120 ≤ finalizeMass accGrowth noise ∧ finalizeMass accGrowth noise ≤ 2200 := by
  refine ⟨computeWeeklyGrowthFor_nonneg (by linarith) hr, ?_, ?_⟩
  · exact le_max_left _ _
  · exact max_le (by norm_num) (min_le_left _ _)

/-- C1 witness: the theorem applied at a concrete valid input. -/
theorem weeklyGrowth_nonneg_and_mass_clamped_witness :
    0 ≤ computeWeeklyGrowthFor 24 2 2 1 0 [] ∧
    120 ≤ finalizeMass 45.6 1 ∧ finalizeMass 45.6 1 ≤ 2200 :=
  weeklyGrowth_nonneg_and_mass_clamped 24 1 2 2 0 [] 45.6 1
    (by norm_num) (by norm_num) (by norm_num) (by norm_num) (by norm_num)
    (by norm_num) (by norm_num [TOTAL_WEEKS, MONTHS, WEEKS_PER_MONTH])
    (fun i => Or.inl (by simp)) (by norm_num) (by norm_num)

/-- The weekly growth value only reads the schedule at its own week. -/
lemma computeWeeklyGrowthFor_congr_reductions {temperatureC soil : ℝ}
    {lightsCount co2Fans : ℤ} {weekIndex : ℕ} {reds reds' : List ℝ}
    (h : reds.getD weekIndex 0 = reds'.getD weekIndex 0) :
    computeWeeklyGrowthFor temperatureC lightsCount co2Fans soil weekIndex reds
      = computeWeeklyGrowthFor temperatureC lightsCount co2Fans soil weekIndex reds' := by
  unfold computeWeeklyGrowthFor effectiveLightFactor
  rw [h]

/-- Unfolding of the tick's accumulator component. -/
lemma ghTick_accGrowth (s : GhRunState) (temperatureC : ℝ) (lightsCount co2Fans : ℤ)
    (soil : ℝ) (cloudyReductions : List ℝ) (currentWeek : ℕ) :
    (ghTick s temperatureC lightsCount co2Fans soil cloudyReductions currentWeek).accGrowth
      = s.accGrowth + integrateRange temperatureC lightsCount co2Fans soil
          cloudyReductions (s.lastWeekComputed + 1).toNat (currentWeek + 1) := rfl

/-- Unfolding of the tick's last-computed-week component. -/
lemma ghTick_lastWeekComputed (s : GhRunState) (temperatureC : ℝ)
    (lightsCount co2Fans : ℤ) (soil : ℝ) (cloudyReductions : List ℝ)
    (currentWeek : ℕ) :
    (ghTick s temperatureC lightsCount co2Fans soil cloudyReductions
        currentWeek).lastWeekComputed
      = max s.lastWeekComputed (currentWeek : ℤ) := rfl

/-- C6: integrating weeks `0..k` and then `k+1..n` — either as two raw
accumulation loops or as two successive ticks from a fresh run state —
yields exactly the accumulator of a single pass over weeks `0..n`. -/
theorem integration_splits (temperatureC soil : ℝ) (lightsCount co2Fans : ℤ)
    (cloudyReductions : List ℝ) (k n : ℕ) (hkn : k < n) (hn : n < TOTAL_WEEKS) :
    integrateRange temperatureC lightsCount co2Fans soil cloudyReductions 0 (k + 1)
      + integrateRange temperatureC lightsCount co2Fans soil cloudyReductions (k + 1) (n + 1)
      = integrateRange temperatureC lightsCount co2Fans soil cloudyReductions 0 (n + 1) ∧
    (ghTick (ghTick ⟨0, -1, 1⟩ temperatureC lightsCount co2Fans soil cloudyReductions k)
        temperatureC lightsCount co2Fans soil cloudyReductions n).accGrowth
      = (ghTick ⟨0, -1, 1⟩ temperatureC lightsCount co2Fans soil cloudyReductions
          n).accGrowth := by
  have hsplit : integrateRange temperatureC lightsCount co2Fans soil cloudyReductions
        0 (k + 1)
      + integrateRange temperatureC lightsCount co2Fans soil cloudyReductions
        (k + 1) (n + 1)
      = integrateRange temperatureC lightsCount co2Fans soil cloudyReductions
        0 (n + 1) := by
    unfold integrateRange
    exact Finset.sum_Ico_consecutive _ (Nat.zero_le _) (by omega)
  refine ⟨hsplit, ?_⟩
  rw [ghTick_accGrowth, ghTick_accGrowth, ghTick_accGrowth, ghTick_lastWeekComputed]
  have h1 : (((-1:ℤ) + 1)).toNat = 0 := rfl
  have h2 : max (-1:ℤ) (k:ℤ) = (k:ℤ) := max_eq_right (by omega)
  have h3 : ((k:ℤ) + 1).toNat = k + 1 := by omega
  rw [h1, h2, h3]
  linarith [hsplit]

/-- C6 witness: the theorem applied at weeks `k = 0`, `n = 1`. -/
theorem integration_splits_witness :
    integrateRange 24 2 2 1 [] 0 1 + integrateRange 24 2 2 1 [] 1 2
      = integrateRange 24 2 2 1 [] 0 2 :=
  (integration_splits 24 1 2 2 [] 0 1 (by norm_num)
    (by norm_num [TOTAL_WEEKS, MONTHS, WEEKS_PER_MONTH])).1

/-- C7: a tick adds to the accumulator exactly the weekly growth of the
weeks strictly after `lastWeekComputed` up to the current week; under the
input invariants the accumulator never decreases; and the accumulator is
unaffected by the schedule beyond the current week — in particular the
forward projection over future weeks is never folded into it. -/
theorem tick_frame_and_monotone (s : GhRunState) (temperatureC soil : ℝ)
    (lightsCount co2Fans : ℤ) (cloudyReductions : List ℝ) (currentWeek : ℕ)
    (hsoil : 0 ≤ soil) (hr : ValidReductions cloudyReductions) :
    (ghTick s temperatureC lightsCount co2Fans soil cloudyReductions
        currentWeek).accGrowth
      = s.accGrowth + ∑ w ∈ Finset.Ico (s.lastWeekComputed + 1).toNat (currentWeek + 1),
          computeWeeklyGrowthFor temperatureC lightsCount co2Fans soil w
            cloudyReductions ∧
    s.accGrowth ≤ (ghTick s temperatureC lightsCount co2Fans soil cloudyReductions
        currentWeek).accGrowth ∧
    ∀ reds' : List ℝ,
      (∀ w : ℕ, w ≤ currentWeek → cloudyReductions.getD w 0 = reds'.getD w 0) →
      (ghTick s temperatureC lightsCount co2Fans soil reds' currentWeek).accGrowth
        = (ghTick s temperatureC lightsCount co2Fans soil cloudyReductions
            currentWeek).accGrowth := by
  refine ⟨ghTick_accGrowth s temperatureC lightsCount co2Fans soil cloudyReductions
      currentWeek, ?_, ?_⟩
  · rw [ghTick_accGrowth]
    have : 0 ≤ integrateRange temperatureC lightsCount co2Fans soil cloudyReductions
        (s.lastWeekComputed + 1).toNat (currentWeek + 1) := by
      unfold integrateRange
      exact Finset.sum_nonneg fun w _ => computeWeeklyGrowthFor_nonneg hsoil hr
    linarith
  · intro reds' hagree
    rw [ghTick_accGrowth, ghTick_accGrowth]
    unfold integrateRange
    congr 1
    apply Finset.sum_congr rfl
    intro w hw
    have hwc : w ≤ currentWeek := by
      have := (Finset.mem_Ico.mp hw).2
      omega
    exact (computeWeeklyGrowthFor_congr_reductions (hagree w hwc)).symm

/-- C7 witness: the theorem applied at a concrete state and inputs. -/
theorem tick_frame_and_monotone_witness :
    (ghTick ⟨0, -1, 1⟩ 24 2 2 1 [] 0).accGrowth
      = (0:ℝ) + ∑ w ∈ Finset.Ico (((-1:ℤ) + 1)).toNat (0 + 1),
          computeWeeklyGrowthFor 24 2 2 1 w [] ∧
    (0:ℝ) ≤ (ghTick ⟨0, -1, 1⟩ 24 2 2 1 [] 0).accGrowth :=
  ⟨(tick_frame_and_monotone ⟨0, -1, 1⟩ 24 1 2 2 [] 0 (by norm_num)
      (fun i => Or.inl (by simp))).1,
   (tick_frame_and_monotone ⟨0, -1, 1⟩ 24 1 2 2 [] 0 (by norm_num)
      (fun i => Or.inl (by simp))).2.1⟩

/-- C9: a start command while the simulation is already running is a
no-op: `runSimulation` returns the state unchanged — no new timer, no new
cloud schedule, accumulators and start timestamp untouched. -/
theorem runSimulation_noop_when_running (st : SimState) (now : ℝ)
    (freshSchedules : List (List ℕ × List ℝ)) (h : st.running = true) :
    runSimulation st now freshSchedules = st := by
  unfold runSimulation
  rw [if_pos h]

/-- C9 witness: the theorem applied to a concrete running state. -/
theorem runSimulation_noop_when_running_witness :
    runSimulation ⟨true, 0, true, []⟩ 5 [] = ⟨true, 0, true, []⟩ :=
  runSimulation_noop_when_running ⟨true, 0, true, []⟩ 5 [] rfl

/-- Seasonal sine value for month 0. -/
lemma sinMonth0 : Real.sin (((0:ℕ):ℝ) / 6 * Real.pi * 2) = 0 := by
  norm_num

/-- Seasonal sine value for month 1. -/
lemma sinMonth1 : Real.sin (((1:ℕ):ℝ) / 6 * Real.pi * 2) = Real.sqrt 3 / 2 := by
  have h : ((1:ℕ):ℝ) / 6 * Real.pi * 2 = Real.pi / 3 := by push_cast; ring
  rw [h, Real.sin_pi_div_three]

/-- Seasonal sine value for month 2. -/
lemma sinMonth2 : Real.sin (((2:ℕ):ℝ) / 6 * Real.pi * 2) = Real.sqrt 3 / 2 := by
  have h : ((2:ℕ):ℝ) / 6 * Real.pi * 2 = Real.pi - Real.pi / 3 := by push_cast; ring
  rw [h, Real.sin_pi_sub, Real.sin_pi_div_three]

/-- Seasonal sine value for month 3. -/
lemma sinMonth3 : Real.sin (((3:ℕ):ℝ) / 6 * Real.pi * 2) = 0 := by
  have h : ((3:ℕ):ℝ) / 6 * Real.pi * 2 = Real.pi := by push_cast; ring
  rw [h, Real.sin_pi]

/-- Seasonal sine value for month 4. -/
lemma sinMonth4 : Real.sin (((4:ℕ):ℝ) / 6 * Real.pi * 2) = -(Real.sqrt 3 / 2) := by
  have h : ((4:ℕ):ℝ) / 6 * Real.pi * 2 = Real.pi - -(Real.pi / 3) := by push_cast; ring
  rw [h, Real.sin_pi_sub, Real.sin_neg, Real.sin_pi_div_three]

/-- Seasonal sine value for month 5. -/
lemma sinMonth5 : Real.sin (((5:ℕ):ℝ) / 6 * Real.pi * 2) = -(Real.sqrt 3 / 2) := by
  have h : ((5:ℕ):ℝ) / 6 * Real.pi * 2 = Real.pi - -(Real.pi - Real.pi / 3) := by
    push_cast; ring
  rw [h, Real.sin_pi_sub, Real.sin_neg, Real.sin_pi_sub, Real.sin_pi_div_three]

/-- Evaluation of the seasonal multiplier through its month index. -/
lemma seasonal_val (w m : ℕ) (hm : w / WEEKS_PER_MONTH = m) (v : ℝ)
    (hv : Real.sin (((m:ℕ):ℝ) / 6 * Real.pi * 2) = v) :
    seasonal w = 0.95 + 0.05 * v := by
  unfold seasonal
  rw [hm, hv]

/-- The seasonal multiplier sums to exactly `22.8` over the 24 simulated
weeks: the six sine values cancel, so the seasonal average is exactly
`0.95`. -/
lemma seasonal_sum : ∑ w ∈ Finset.range 24, seasonal w = 22.8 := by
  simp only [Finset.sum_range_succ, Finset.sum_range_zero]
  rw [seasonal_val 0 0 rfl 0 sinMonth0, seasonal_val 1 0 rfl 0 sinMonth0,
      seasonal_val 2 0 rfl 0 sinMonth0, seasonal_val 3 0 rfl 0 sinMonth0,
      seasonal_val 4 1 rfl (Real.sqrt 3 / 2) sinMonth1,
      seasonal_val 5 1 rfl (Real.sqrt 3 / 2) sinMonth1,
      seasonal_val 6 1 rfl (Real.sqrt 3 / 2) sinMonth1,
      seasonal_val 7 1 rfl (Real.sqrt 3 / 2) sinMonth1,
      seasonal_val 8 2 rfl (Real.sqrt 3 / 2) sinMonth2,
      seasonal_val 9 2 rfl (Real.sqrt 3 / 2) sinMonth2,
      seasonal_val 10 2 rfl (Real.sqrt 3 / 2) sinMonth2,
      seasonal_val 11 2 rfl (Real.sqrt 3 / 2) sinMonth2,
      seasonal_val 12 3 rfl 0 sinMonth3, seasonal_val 13 3 rfl 0 sinMonth3,
      seasonal_val 14 3 rfl 0 sinMonth3, seasonal_val 15 3 rfl 0 sinMonth3,
      seasonal_val 16 4 rfl (-(Real.sqrt 3 / 2)) sinMonth4,
      seasonal_val 17 4 rfl (-(Real.sqrt 3 / 2)) sinMonth4,
      seasonal_val 18 4 rfl (-(Real.sqrt 3 / 2)) sinMonth4,
      seasonal_val 19 4 rfl (-(Real.sqrt 3 / 2)) sinMonth4,
      seasonal_val 20 5 rfl (-(Real.sqrt 3 / 2)) sinMonth5,
      seasonal_val 21 5 rfl (-(Real.sqrt 3 / 2)) sinMonth5,
      seasonal_val 22 5 rfl (-(Real.sqrt 3 / 2)) sinMonth5,
      seasonal_val 23 5 rfl (-(Real.sqrt 3 / 2)) sinMonth5]
  ring

/-- In the reference scenario (24 °C, 2 lights, 2 CO2 fans, soil 1, no
clouds) a week's growth is the seasonal multiplier times `1.6 × 1.25`. -/
lemma weekly_scenario (w : ℕ) : computeWeeklyGrowthFor 24 2 2 1 w [] = seasonal w * 2 := by
  unfold computeWeeklyGrowthFor
  rw [tempFactor_at_24]
  have he : effectiveLightFactor 2 w [] = lightFactorOf 2 := by
    unfold effectiveLightFactor
    simp
  rw [he, lightFactorOf_vals.2.2.1, co2FactorOf_vals.2.2.1]
  ring

/-- The fully integrated scenario accumulator is exactly
`24 × 0.95 × 1.6 × 1.25 = 45.6`. -/
lemma scenario_acc : integrateRange 24 2 2 1 [] 0 TOTAL_WEEKS = 45.6 := by
  have ht : TOTAL_WEEKS = 24 := rfl
  unfold integrateRange
  rw [ht, (congrFun Finset.range_eq_Ico 24).symm]
  calc ∑ w ∈ Finset.range 24, computeWeeklyGrowthFor 24 2 2 1 w []
      = ∑ w ∈ Finset.range 24, seasonal w * 2 :=
        Finset.sum_congr rfl fun w _ => weekly_scenario w
    _ = (∑ w ∈ Finset.range 24, seasonal w) * 2 := (Finset.sum_mul _ _ _).symm
    _ = 45.6 := by rw [seasonal_sum]; norm_num

/-- Bounds on `45.6 ^ 1.05`, obtained from `1.21 ≤ 45.6 ^ (1/20) ≤ 1.22`. -/
lemma rpow_scenario_bounds :
    55.17 ≤ (45.6:ℝ) ^ (1.05:ℝ) ∧ (45.6:ℝ) ^ (1.05:ℝ) ≤ 55.64 := by
  have hy0 : (0:ℝ) < (45.6:ℝ) ^ (0.05:ℝ) := Real.rpow_pos_of_pos (by norm_num) _
  have hy20 : ((45.6:ℝ) ^ (0.05:ℝ)) ^ (20:ℕ) = 45.6 := by
    rw [← Real.rpow_natCast ((45.6:ℝ) ^ (0.05:ℝ)) 20,
        ← Real.rpow_mul (by norm_num : (0:ℝ) ≤ 45.6),
        show (0.05:ℝ) * ((20:ℕ):ℝ) = 1 by push_cast; norm_num, Real.rpow_one]
  have hlow : (1.21:ℝ) ≤ (45.6:ℝ) ^ (0.05:ℝ) := by
    by_contra hc
    push_neg at hc
    have hp : ((45.6:ℝ) ^ (0.05:ℝ)) ^ (20:ℕ) ≤ (1.21:ℝ) ^ (20:ℕ) :=
      pow_le_pow_left (le_of_lt hy0) (le_of_lt hc) 20
    rw [hy20] at hp
    norm_num at hp
  have hupp : (45.6:ℝ) ^ (0.05:ℝ) ≤ 1.22 := by
    by_contra hc
    push_neg at hc
    have hp : (1.22:ℝ) ^ (20:ℕ) ≤ ((45.6:ℝ) ^ (0.05:ℝ)) ^ (20:ℕ) :=
      pow_le_pow_left (by norm_num) (le_of_lt hc) 20
    rw [hy20] at hp
    norm_num at hp
  have hsplit : (45.6:ℝ) ^ (1.05:ℝ) = 45.6 * (45.6:ℝ) ^ (0.05:ℝ) := by
    rw [show (1.05:ℝ) = 1 + 0.05 by norm_num, Real.rpow_add (by norm_num), Real.rpow_one]
  constructor <;> rw [hsplit] <;> linarith

/-- Final-mass interval for the reference scenario accumulator `45.6`. -/
lemma scenario_mass_bounds {noise : ℝ} (h1 : 0.9 ≤ noise) (h2 : noise < 1.1) :
    1610 ≤ finalizeMass 45.6 noise ∧ finalizeMass 45.6 noise ≤ 1956 := by
  obtain ⟨hl, hu⟩ := rpow_scenario_bounds
  have hn0 : (0:ℝ) ≤ noise := by linarith
  have hlo : (55.17:ℝ) * noise ≤ (45.6:ℝ) ^ (1.05:ℝ) * noise :=
    mul_le_mul_of_nonneg_right hl hn0
  have hhi : (45.6:ℝ) ^ (1.05:ℝ) * noise ≤ (55.64:ℝ) * noise :=
    mul_le_mul_of_nonneg_right hu hn0
  have hx1 : (1609.5:ℝ) ≤ 120 + 30 * (45.6:ℝ) ^ (1.05:ℝ) * noise := by nlinarith
  have hx2 : 120 + 30 * (45.6:ℝ) ^ (1.05:ℝ) * noise < 1956.5 := by nlinarith
  have hr1 : (1610:ℤ) ≤ round (120 + 30 * (45.6:ℝ) ^ (1.05:ℝ) * noise) := by
    rw [round_eq, Int.le_floor]
    push_cast
    linarith
  have hr2 : round (120 + 30 * (45.6:ℝ) ^ (1.05:ℝ) * noise) ≤ 1956 := by
    rw [round_eq, Int.floor_le_iff]
    push_cast
    linarith
  unfold finalizeMass
  rw [min_eq_right (le_trans hr2 (by norm_num)),
      max_eq_right (le_trans (by norm_num) hr1)]
  exact ⟨hr1, hr2⟩

/-- C3 counterexample: in the reference scenario (24 °C, 2 lights, 2 CO2
fans, soil 1, no clouds, 24 weeks) the fully-integrated accumulator is NOT
`24 × 1.0 × 1.0 × 1.6 × 1.25 × 1.0 = 48`: the seasonal factor averages
exactly `0.95`, so the accumulator is `45.6`. -/
theorem scenario_acc_ne_48 :
    ¬ integrateRange 24 2 2 1 [] 0 TOTAL_WEEKS
        = 24 * 1.0 * 1.0 * 1.6 * 1.25 * 1.0 := by
  rw [scenario_acc]
  norm_num

/-- C3 (amended): the scenario accumulator equals
`24 × 0.95 × 1.0 × 1.6 × 1.25 × 1.0 = 45.6` exactly, and for every noise
draw in `[0.9, 1.1)` the finalized mass lies in `[1610, 1956]`, inside the
allowed `[120, 2200]` range but not clamped at its top. -/
theorem scenario_acc_and_mass (noise : ℝ) (h1 : 0.9 ≤ noise) (h2 : noise < 1.1) :
    integrateRange 24 2 2 1 [] 0 TOTAL_WEEKS = 24 * 0.95 * 1.0 * 1.6 * 1.25 * 1.0 ∧
    1610 ≤ finalizeMass (integrateRange 24 2 2 1 [] 0 TOTAL_WEEKS) noise ∧
    finalizeMass (integrateRange 24 2 2 1 [] 0 TOTAL_WEEKS) noise ≤ 1956 ∧
    120 ≤ finalizeMass (integrateRange 24 2 2 1 [] 0 TOTAL_WEEKS) noise ∧
    finalizeMass (integrateRange 24 2 2 1 [] 0 TOTAL_WEEKS) noise ≤ 2200 := by
  obtain ⟨hm1, hm2⟩ := scenario_mass_bounds h1 h2
  rw [scenario_acc]
  exact ⟨by norm_num, hm1, hm2, by omega, by omega⟩

/-- C3 witness: the amended theorem applied at noise `1`. -/
theorem scenario_acc_and_mass_witness :
    integrateRange 24 2 2 1 [] 0 TOTAL_WEEKS = 24 * 0.95 * 1.0 * 1.6 * 1.25 * 1.0 ∧
    1610 ≤ finalizeMass (integrateRange 24 2 2 1 [] 0 TOTAL_WEEKS) 1 ∧
    finalizeMass (integrateRange 24 2 2 1 [] 0 TOTAL_WEEKS) 1 ≤ 1956 ∧
    120 ≤ finalizeMass (integrateRange 24 2 2 1 [] 0 TOTAL_WEEKS) 1 ∧
    finalizeMass (integrateRange 24 2 2 1 [] 0 TOTAL_WEEKS) 1 ≤ 2200 :=
  scenario_acc_and_mass 1 (by norm_num) (by norm_num)

/-- C10 witness: the theorem applied at concrete masses. -/
theorem tomatoScale_bounded_and_monotone_witness :
    0.8 ≤ tomatoScaleFromMass 1000 ∧ tomatoScaleFromMass 100 = 0.8 ∧
    tomatoScaleFromMass 2500 = 1.5 ∧
    tomatoScaleFromMass 900 ≤ tomatoScaleFromMass 1000 :=
  ⟨(tomatoScale_bounded_and_monotone 1000).1,
   (tomatoScale_bounded_and_monotone 100).2.2.1 (by norm_num),
   (tomatoScale_bounded_and_monotone 2500).2.2.2.1 (by norm_num),
   (tomatoScale_bounded_and_monotone 900).2.2.2.2.2 900 1000 (by norm_num)⟩
